import Mathlib

/-!
Shallow embedding of `src/autofix.py`, a workspace auto-setup CLI.

The program shells out to external tools (`subprocess.run`), reads files
(`pathlib`), and parses JSON (`json.loads`).  Those external effects are
modelled by explicit parameters:

* `FS` — the working directory: which paths exist, and what `read_text`
  returns (`none` models an `IOError`/`OSError` on read).
* `SysEnv` — the operating system and Python standard library: which
  executables can be located (`execFound`, a failed lookup models
  `FileNotFoundError`), the observable outcome of an actually-started
  process (`runProc` for `shell=False`, `runShell` for `shell=True`), the
  outcome of `python -c "import pkg"` probes, and `json.loads`
  (`jsonParse`, `none` models `json.JSONDecodeError`; the embedding
  restricts attention to top-level JSON objects, returning the object's
  fields — a non-object top level would make the Python crash with an
  uncaught `AttributeError`, which no claim exercises).

Every function that may run a child process also returns a trace of
`Event`s: the commands passed to `CommandRunner.execute` and the child
processes actually spawned.  Windows `pathlib` path separators are
normalised to `/` (no claim depends on the separator character).
-/

/-- A command as passed to `CommandRunner.execute`: either a single string
or an argument list (Python `Union[str, List[str]]`). -/
inductive Cmd where
  | str (s : String)
  | list (args : List String)
deriving DecidableEq, Repr

/-- Observable events of a run: calls to `CommandRunner.execute` and child
processes actually spawned (by `execute` itself, by the `_has_command`
shell probe, or by the `_has_python_package` import probe). -/
inductive Event where
  | execCall (cmd : Cmd) (cwd : Option String)
  | execProc (cmd : Cmd) (cwd : Option String)
  | execShell (line : String) (cwd : Option String)
  | probeShell (line : String)
  | probeImport (args : List String)
deriving DecidableEq, Repr

abbrev Trace := List Event

/-- An event that corresponds to an actually-spawned child process
(everything except the `execCall` marker). -/
def Event.isSpawn : Event → Bool
  | .execCall _ _ => false
  | _ => true

/-- An event produced by one of the capability/package probes, which run
`subprocess` directly rather than through `CommandRunner.execute`. -/
def Event.isProbe : Event → Bool
  | .probeShell _ => true
  | .probeImport _ => true
  | _ => false

/-- Captured output of a child process that actually started. -/
structure ProcOut where
  exitCode : Int
  stdout : String
  stderr : String

/-- A minimal JSON value, for the parsed contents of `package.json`. -/
inductive Json where
  | jstr (s : String)
  | jnum (n : Int)
  | jbool (b : Bool)
  | jnull
  | jarr (xs : List Json)
  | jobj (fields : List (String × Json))

/-- The working directory as seen through `pathlib`:
existence checks and `read_text` (`none` = read raises). -/
structure FS where
  pathExists : String → Bool
  readText : String → Option String

/-- The operating system / Python stdlib surface the program relies on. -/
structure SysEnv where
  execFound : String → Bool
  runProc : Cmd → Option String → ProcOut
  runShell : String → Option String → ProcOut
  jsonParse : String → Option (List (String × Json))

/-- `RuntimeConfig` from the source (the `venv_paths` property is the two
definitions below). -/
structure RuntimeConfig where
  dry_run : Bool := false
  verbose : Bool := false
  is_windows : Bool := false

/-- `VENV_PATHS[...]["pip"]` for the current platform family. -/
def venvPipRel (config : RuntimeConfig) : String :=
  if config.is_windows then "Scripts/pip.exe" else "bin/pip"

/-- `VENV_PATHS[...]["python"]` for the current platform family. -/
def venvPythonRel (config : RuntimeConfig) : String :=
  if config.is_windows then "Scripts/python.exe" else "bin/python"

/-- `' '.join(cmd) if isinstance(cmd, list) else cmd`. -/
def cmdDisplay : Cmd → String
  | .str s => s
  | .list args => " ".intercalate args

/-- The f-string rendering of `cmd` in the command-not-found message
(Python `repr` for a list, the string itself otherwise). -/
def cmdRepr : Cmd → String
  | .str s => s
  | .list args =>
      "[" ++ ", ".intercalate (args.map (fun a => "\x27" ++ a ++ "\x27")) ++ "]"

/-- `CommandRunner._prepare_command`: on Windows a list command is joined
into a single string; otherwise the command is returned unchanged. -/
def prepare_command (config : RuntimeConfig) : Cmd → Cmd
  | .list args => if config.is_windows then .str (" ".intercalate args) else .list args
  | .str s => .str s

/-- Last line of the stripped stderr, as in
`error.stderr.strip().split(chr(10))[-1]`. -/
def lastLine (s : String) : String :=
  (s.trim.splitOn "\n").getLastD ""

/-- The lines printed by `CommandRunner._handle_error`. -/
def handle_error_prints (config : RuntimeConfig) (cmd : Cmd) (code : Int)
    (stderr : String) : List String :=
  let base := ["  ❌ Command failed: " ++ cmdDisplay cmd]
  if config.verbose then
    base ++ ["  Error code: " ++ toString code] ++
      (if stderr ≠ "" then ["  Error: " ++ stderr.trim] else [])
  else if stderr ≠ "" then
    base ++ ["  Error: " ++ lastLine stderr]
  else base

/-- Outcome of one `subprocess.run(..., check=True)` call. -/
inductive RunOutcome where
  | ok (stdout : String)
  | exitFail (code : Int) (stderr : String)
  | notFound

/-- `subprocess.run(shell_cmd, cwd=cwd, shell=useShell, check=True, ...)`.
With `shell=False` the program name is the whole string for a string
command, or the head for a list command; a failed lookup raises
`FileNotFoundError` before any child is spawned.  With `shell=True` the
line is handed to the shell, which is always found (when `execute` uses
`shell=True` the command has already been joined to a string). -/
def subprocessRun (env : SysEnv) (shellCmd : Cmd) (cwd : Option String)
    (useShell : Bool) : RunOutcome × Trace :=
  if useShell then
    let line := cmdDisplay shellCmd
    let out := env.runShell line cwd
    (if out.exitCode == 0 then .ok out.stdout else .exitFail out.exitCode out.stderr,
     [.execShell line cwd])
  else
    let prog := match shellCmd with
      | .str s => s
      | .list args => args.headD ""
    if env.execFound prog then
      let out := env.runProc shellCmd cwd
      (if out.exitCode == 0 then .ok out.stdout else .exitFail out.exitCode out.stderr,
       [.execProc shellCmd cwd])
    else (.notFound, [])

/-- Result of `CommandRunner.execute`: the boolean the caller sees, the
event trace, and the lines printed. -/
structure ExecResult where
  ok : Bool
  events : Trace
  prints : List String

/-- `CommandRunner.execute`.  In dry-run mode it prints the command and
returns `True` without running anything.  Otherwise it prepares the
command, runs it with `shell=is_windows`, and converts every failure mode
to `False` plus a printed message. -/
def execute (config : RuntimeConfig) (env : SysEnv) (cmd : Cmd)
    (cwd : Option String) : ExecResult :=
  if config.dry_run then
    { ok := true, events := [.execCall cmd cwd],
      prints := ["  [DRY] " ++ cmdDisplay cmd] }
  else
    let shell_cmd := prepare_command config cmd
    let pre := if config.verbose then ["  Running: " ++ cmdDisplay cmd] else []
    let (outcome, spawnEvs) := subprocessRun env shell_cmd cwd config.is_windows
    match outcome with
    | .ok stdout =>
        { ok := true, events := .execCall cmd cwd :: spawnEvs,
          prints := pre ++
            (if config.verbose && stdout.trim ≠ "" then
               ["  Output: " ++ stdout.trim] else []) }
    | .exitFail code stderr =>
        { ok := false, events := .execCall cmd cwd :: spawnEvs,
          prints := pre ++ handle_error_prints config cmd code stderr }
    | .notFound =>
        { ok := false, events := [.execCall cmd cwd],
          prints := pre ++ ["  ❌ Command not found: " ++ cmdRepr cmd] }

/-- `ProjectDetector._has_command`: runs `<cmd> --version` through the
shell (`shell=True`, not gated on dry-run), returning whether it exited
zero.  The shell process is always spawned. -/
def has_command (env : SysEnv) (c : String) : Bool × Trace :=
  ((env.runShell (c ++ " --version") none).exitCode == 0,
   [.probeShell (c ++ " --version")])

/-- `PROJECT_DETECTORS`, in the source's insertion order. -/
def PROJECT_DETECTORS : List (String × List String) :=
  [("node", ["package.json"]),
   ("python", ["requirements.txt", "pyproject.toml", "setup.py"]),
   ("rust", ["Cargo.toml"]),
   ("flutter", ["pubspec.yaml"]),
   ("git", [".git"])]

/-- `ProjectDetector.detect_languages`. -/
def detect_languages (fs : FS) : List String :=
  (PROJECT_DETECTORS.filter (fun pr => pr.2.any fs.pathExists)).map Prod.fst

/-- The lockfile table of `ProjectDetector.get_package_manager`. -/
def lock_files : List (String × String) :=
  [("pnpm-lock.yaml", "pnpm"), ("yarn.lock", "yarn"), ("package-lock.json", "npm")]

/-- The `for lock_file, pm in lock_files` loop: first pair whose lockfile
exists and whose probe succeeds; probes only run when the lockfile exists. -/
def pmLockLoop (env : SysEnv) (fs : FS) :
    List (String × String) → Option String × Trace
  | [] => (none, [])
  | (lf, pm) :: rest =>
      if fs.pathExists lf then
        let (ok, t) := has_command env pm
        if ok then (some pm, t)
        else
          let (r, t2) := pmLockLoop env fs rest
          (r, t ++ t2)
      else pmLockLoop env fs rest

/-- The `next((pm for pm in [...] if _has_command(pm)), None)` fallback:
first tool in the fixed order whose probe succeeds. -/
def pmFallback (env : SysEnv) : List String → Option String × Trace
  | [] => (none, [])
  | pm :: rest =>
      let (ok, t) := has_command env pm
      if ok then (some pm, t)
      else
        let (r, t2) := pmFallback env rest
        (r, t ++ t2)

/-- `ProjectDetector.get_package_manager`. -/
def get_package_manager (env : SysEnv) (fs : FS) : Option String × Trace :=
  let (r, t) := pmLockLoop env fs lock_files
  match r with
  | some pm => (some pm, t)
  | none =>
      let (r2, t2) := pmFallback env ["npm", "pnpm", "yarn"]
      (r2, t ++ t2)

/-- `ProjectSetup._install_python_deps`. -/
def install_python_deps (config : RuntimeConfig) (env : SysEnv) (fs : FS)
    (pip_path : String) : Bool × Trace :=
  if fs.pathExists "requirements.txt" then
    let r := execute config env (.list [pip_path, "install", "-r", "requirements.txt"]) none
    (r.ok, r.events)
  else if fs.pathExists "pyproject.toml" then
    let r := execute config env (.list [pip_path, "install", "-e", "."]) none
    (r.ok, r.events)
  else (true, [])

/-- `ProjectSetup.setup_python` (`sysExec` stands for `sys.executable`). -/
def setup_python (config : RuntimeConfig) (env : SysEnv) (fs : FS)
    (sysExec : String) : Bool × Trace :=
  let venv_pip := ".venv/" ++ venvPipRel config
  if ¬ fs.pathExists ".venv" then
    let r := execute config env (.list [sysExec, "-m", "venv", ".venv"]) none
    if ¬ r.ok then (false, r.events)
    else
      let (r2, t2) := install_python_deps config env fs venv_pip
      (r2, r.events ++ t2)
  else install_python_deps config env fs venv_pip

/-- `ProjectSetup.setup_node`. -/
def setup_node (config : RuntimeConfig) (env : SysEnv) (fs : FS) : Bool × Trace :=
  let (pmOpt, t0) := get_package_manager env fs
  match pmOpt with
  | none => (false, t0)
  | some pm =>
      if pm == "npm" && fs.pathExists "package-lock.json" then
        let r1 := execute config env (.str "npm ci") none
        if r1.ok then (true, t0 ++ r1.events)
        else
          let r2 := execute config env (.str (pm ++ " install")) none
          (r2.ok, t0 ++ r1.events ++ r2.events)
      else
        let r2 := execute config env (.str (pm ++ " install")) none
        (r2.ok, t0 ++ r2.events)

/-- `ProjectSetup.setup_rust`. -/
def setup_rust (config : RuntimeConfig) (env : SysEnv) : Bool × Trace :=
  let (ok, t) := has_command env "cargo"
  if ¬ ok then (false, t)
  else
    let r := execute config env (.list ["cargo", "fetch"]) none
    (r.ok, t ++ r.events)

/-- Substring test: whether `needle` occurs in `hay` (Python `in` on
strings), as contiguous-infix containment on the character lists. -/
def containsSub (hay needle : String) : Bool :=
  decide (needle.data <:+: hay.data)

/-- `ProjectSetup._has_build_runner`: `False` if `pubspec.yaml` is absent
or dry-run is enabled; otherwise whether the file's text contains
`build_runner:`, with a read failure caught and treated as `False`. -/
def has_build_runner (config : RuntimeConfig) (fs : FS) : Bool :=
  if ¬ fs.pathExists "pubspec.yaml" || config.dry_run then false
  else
    match fs.readText "pubspec.yaml" with
    | none => false
    | some text => containsSub text "build_runner:"

/-- The code-generation build command of `setup_flutter`. -/
def buildRunnerCmd : Cmd :=
  .str "flutter packages pub run build_runner build --delete-conflicting-outputs"

/-- `ProjectSetup.setup_flutter`: requires the `flutter` probe, runs
`flutter pub get`, and, when `_has_build_runner`, additionally runs the
build step, combining the two results with a non-short-circuiting `&=`. -/
def setup_flutter (config : RuntimeConfig) (env : SysEnv) (fs : FS) : Bool × Trace :=
  let (ok, t0) := has_command env "flutter"
  if ¬ ok then (false, t0)
  else
    let r1 := execute config env (.str "flutter pub get") none
    if has_build_runner config fs then
      let r2 := execute config env buildRunnerCmd none
      (r1.ok && r2.ok, t0 ++ r1.events ++ r2.events)
    else (r1.ok, t0 ++ r1.events)

/-- `ProjectSetup._get_python_executable`. -/
def get_python_executable (config : RuntimeConfig) (fs : FS)
    (sysExec : String) : String :=
  let venv_python := ".venv/" ++ venvPythonRel config
  if fs.pathExists venv_python then venv_python else sysExec

/-- `ProjectSetup.setup_git_hooks`. -/
def setup_git_hooks (config : RuntimeConfig) (env : SysEnv) (fs : FS)
    (sysExec : String) : Bool × Trace :=
  if ¬ fs.pathExists ".pre-commit-config.yaml" then (true, [])
  else
    let python_cmd := get_python_executable config fs sysExec
    let r := execute config env (.list [python_cmd, "-m", "pre_commit", "install"]) none
    (r.ok, r.events)

/-- `CodeFormatter._has_python_package`: `subprocess.run([python_exe, "-c",
"import pkg"], check=True, capture_output=True)` with both error classes
caught; no child is spawned when the interpreter cannot be located. -/
def has_python_package (env : SysEnv) (python_exe pkg : String) : Bool × Trace :=
  let args := [python_exe, "-c", "import " ++ pkg]
  if env.execFound python_exe then
    ((env.runProc (.list args) none).exitCode == 0, [.probeImport args])
  else (false, [])

/-- `CodeFormatter._format_python`: skip unless the venv interpreter
exists; otherwise use the first of `ruff`, `black` whose import probe
succeeds; no-op success when neither is installed. -/
def format_python (config : RuntimeConfig) (env : SysEnv) (fs : FS) : Bool × Trace :=
  let venv_python := ".venv/" ++ venvPythonRel config
  if ¬ fs.pathExists venv_python then (true, [])
  else
    let (okRuff, t1) := has_python_package env venv_python "ruff"
    if okRuff then
      let r := execute config env (.list [venv_python, "-m", "ruff", "format", "."]) none
      (r.ok, t1 ++ r.events)
    else
      let (okBlack, t2) := has_python_package env venv_python "black"
      if okBlack then
        let r := execute config env (.list [venv_python, "-m", "black", "."]) none
        (r.ok, t1 ++ t2 ++ r.events)
      else (true, t1 ++ t2)

/-- Python `dict` lookup on a parsed JSON object's fields (`json.loads`
keeps the last of duplicate keys). -/
def dictGet (fields : List (String × Json)) (key : String) : Option Json :=
  (fields.filter (fun kv => kv.1 == key)).getLast?.map Prod.snd

/-- Python `key in value` for the `scripts` value: key membership for a
dict, substring for a string, element equality for a list.  (On a number,
boolean or null the Python would raise `TypeError`; no claim reaches
that case and it is modelled as `false`.) -/
def pyContainsKey (key : String) : Json → Bool
  | .jobj fields => fields.any (fun kv => kv.1 == key)
  | .jstr s => containsSub s key
  | .jarr xs => xs.any (fun j => match j with | .jstr s => s == key | _ => false)
  | _ => false

/-- `CodeFormatter._has_npm_format_script`: `False` when `package.json` is
absent, unreadable, or fails to parse as JSON; otherwise whether
`"format" in pkg_data.get("scripts", dict())`. -/
def has_npm_format_script (env : SysEnv) (fs : FS) : Bool :=
  if ¬ fs.pathExists "package.json" then false
  else
    match fs.readText "package.json" with
    | none => false
    | some content =>
        match env.jsonParse content with
        | none => false
        | some fields => pyContainsKey "format" ((dictGet fields "scripts").getD (.jobj []))

/-- The Prettier configuration filenames checked by `_format_node`. -/
def prettier_configs : List String := [".prettierrc", "prettier.config.js", ".prettierrc.json"]

/-- `CodeFormatter._format_node`. -/
def format_node (config : RuntimeConfig) (env : SysEnv) (fs : FS) : Bool × Trace :=
  if has_npm_format_script env fs then
    let r := execute config env (.str "npm run format") none
    (r.ok, r.events)
  else if prettier_configs.any fs.pathExists then
    let r := execute config env (.str "npx prettier --write .") none
    (r.ok, r.events)
  else (true, [])

/-- `CodeFormatter._format_flutter`. -/
def format_flutter (config : RuntimeConfig) (env : SysEnv) : Bool × Trace :=
  let r := execute config env (.str "dart format .") none
  (r.ok, r.events)

/-- `CodeFormatter.format_all`: each applicable formatter is attempted and
the results are combined with non-short-circuiting `&=`. -/
def format_all (config : RuntimeConfig) (env : SysEnv) (fs : FS)
    (detected : List String) : Bool × Trace :=
  let (s1, t1) := if detected.contains "python" then format_python config env fs else (true, [])
  let (s2, t2) := if detected.contains "node" then format_node config env fs else (true, [])
  let (s3, t3) := if detected.contains "flutter" then format_flutter config env else (true, [])
  (s1 && s2 && s3, t1 ++ t2 ++ t3)

/-- `parse_arguments` over `sys.argv` (minus the program name): `none`
models the `sys.exit(0)` taken on `--help`/`-h` before anything else. -/
def parse_arguments (isWindows : Bool) (argv : List String) : Option RuntimeConfig :=
  if argv.contains "--help" || argv.contains "-h" then none
  else some
    { dry_run := argv.contains "--dry-run" || argv.contains "-n",
      verbose := argv.contains "--verbose" || argv.contains "-v",
      is_windows := isWindows }

/-- The `setup_methods` dispatch table in `main` (`none` for a key not in
the table, matching `if project_type in setup_methods`). -/
def setupFor (config : RuntimeConfig) (env : SysEnv) (fs : FS) (sysExec : String) :
    String → Option (Bool × Trace)
  | "python" => some (setup_python config env fs sysExec)
  | "node" => some (setup_node config env fs)
  | "rust" => some (setup_rust config env)
  | "flutter" => some (setup_flutter config env fs)
  | "git" => some (setup_git_hooks config env fs sysExec)
  | _ => none

/-- The `all(setup_methods[t]() for t in detected if t in setup_methods)`
aggregation in `main`.  `all` consumes the generator lazily, so strategies
after the first failing one are never invoked.  Returns the aggregate
result, the list of strategies actually invoked, and the event trace. -/
def runSetups (config : RuntimeConfig) (env : SysEnv) (fs : FS) (sysExec : String) :
    List String → Bool × List String × Trace
  | [] => (true, [], [])
  | lang :: rest =>
      match setupFor config env fs sysExec lang with
      | none => runSetups config env fs sysExec rest
      | some (r, t) =>
          if r then
            let (r2, inv2, t2) := runSetups config env fs sysExec rest
            (r2, lang :: inv2, t ++ t2)
          else (false, [lang], t)

/-- The body of `main` after argument parsing: detection, the setup phase,
the formatting phase, and the final exit code (0 on success or when no
ecosystems are detected, 1 when any invoked strategy failed).  Returns the
exit code, the invoked setup strategies, and the event trace. -/
def mainRun (config : RuntimeConfig) (env : SysEnv) (fs : FS) (sysExec : String) :
    Nat × List String × Trace :=
  let detected := detect_languages fs
  if detected.isEmpty then (0, [], [])
  else
    let (s1, inv, t1) := runSetups config env fs sysExec detected
    let (s2, t2) := format_all config env fs detected
    (if s1 && s2 then 0 else 1, inv, t1 ++ t2)

/-- The whole process: `parse_arguments` then `main`; exit code 0 on help. -/
def programExit (isWindows : Bool) (argv : List String) (env : SysEnv) (fs : FS)
    (sysExec : String) : Nat :=
  match parse_arguments isWindows argv with
  | none => 0
  | some config => (mainRun config env fs sysExec).1

/-! ### Concrete fixtures used by witnesses and counterexamples -/

/-- A process outcome with a nonzero exit code. -/
def procFail : ProcOut := { exitCode := 1, stdout := "", stderr := "" }

/-- A process outcome with exit code zero. -/
def procOk : ProcOut := { exitCode := 0, stdout := "", stderr := "" }

/-- An environment where nothing is installed: no executable resolves, every
shell line exits nonzero, and JSON parsing fails. -/
def envNothing : SysEnv :=
  { execFound := fun _ => false,
    runProc := fun _ _ => procFail,
    runShell := fun _ _ => procFail,
    jsonParse := fun _ => none }

/-- An empty working directory. -/
def fsEmpty : FS := { pathExists := fun _ => false, readText := fun _ => none }

/-- Default flags: no dry-run, no verbose, Unix platform. -/
def cfgDefault : RuntimeConfig := {}

/-- Dry-run enabled, Unix platform. -/
def cfgDry : RuntimeConfig := { dry_run := true }

/-! ### Helper lemmas -/

/-- `subprocessRun` never emits an `execCall` marker. -/
theorem subprocessRun_no_execCall (env : SysEnv) (shellCmd : Cmd) (cwd : Option String)
    (useShell : Bool) (c : Cmd) (w : Option String) :
    Event.execCall c w ∉ (subprocessRun env shellCmd cwd useShell).2 := by
  simp only [subprocessRun]
  split
  · simp
  · split <;> simp

/-- The only `execCall` event `execute` emits is its own. -/
theorem execute_mem_execCall (config : RuntimeConfig) (env : SysEnv) (cmd : Cmd)
    (cwd : Option String) (c : Cmd) (w : Option String) :
    Event.execCall c w ∈ (execute config env cmd cwd).events ↔ (c = cmd ∧ w = cwd) := by
  by_cases hd : config.dry_run
  · simp [execute, hd]
  · have hno := subprocessRun_no_execCall env (prepare_command config cmd) cwd
      config.is_windows c w
    simp only [execute, hd, Bool.false_eq_true, if_false]
    rcases hsub : subprocessRun env (prepare_command config cmd) cwd config.is_windows
      with ⟨outcome, evs⟩
    rw [hsub] at hno
    cases outcome <;> simp_all

/-- `has_command` only emits a probe event. -/
theorem has_command_events (env : SysEnv) (c : String) :
    (has_command env c).2.all Event.isProbe = true := by
  simp [has_command, Event.isProbe]

/-- Every event of the lockfile loop is a probe. -/
theorem pmLockLoop_events (env : SysEnv) (fs : FS) (l : List (String × String)) :
    ((pmLockLoop env fs l).2.all Event.isProbe) = true := by
  induction l with
  | nil => rfl
  | cons p rest ih =>
      obtain ⟨lf, pm⟩ := p
      simp only [pmLockLoop]
      split
      · split
        · simp [has_command, Event.isProbe]
        · simp [has_command, Event.isProbe, ih]
      · exact ih

/-- Every event of the fallback scan is a probe. -/
theorem pmFallback_events (env : SysEnv) (l : List String) :
    ((pmFallback env l).2.all Event.isProbe) = true := by
  induction l with
  | nil => rfl
  | cons pm rest ih =>
      simp only [pmFallback]
      split
      · simp [has_command, Event.isProbe]
      · simp [has_command, Event.isProbe, ih]

/-- Every event of `get_package_manager` is a probe (the probes are not
routed through `CommandRunner.execute`). -/
theorem get_package_manager_events (env : SysEnv) (fs : FS) :
    ((get_package_manager env fs).2.all Event.isProbe) = true := by
  simp only [get_package_manager]
  split
  · exact pmLockLoop_events env fs lock_files
  · simp [List.all_append, pmLockLoop_events, pmFallback_events]

/-- An `execCall` event never occurs in a probe-only trace. -/
theorem execCall_not_mem_probes {t : Trace} (h : t.all Event.isProbe = true)
    (c : Cmd) (w : Option String) : Event.execCall c w ∉ t := by
  intro hmem
  have := List.all_eq_true.mp h _ hmem
  simp [Event.isProbe] at this

/-! ### Claim theorems -/

/-- C3: for every command (string or list) and every working directory,
when dry-run is enabled, `execute` prints the command without executing
it, spawns no child process, and returns true. -/
theorem execute_dry_run_invariant (config : RuntimeConfig) (env : SysEnv) (cmd : Cmd)
    (cwd : Option String) (h : config.dry_run = true) :
    (execute config env cmd cwd).ok = true ∧
    ((execute config env cmd cwd).events.filter Event.isSpawn) = [] ∧
    (execute config env cmd cwd).prints = ["  [DRY] " ++ cmdDisplay cmd] := by
  simp [execute, h, Event.isSpawn]

/-- Witness for C3 at a concrete dry-run configuration and command. -/
theorem execute_dry_run_invariant_witness :
    cfgDry.dry_run = true ∧
    (execute cfgDry envNothing (.str "flutter pub get") none).ok = true ∧
    ((execute cfgDry envNothing (.str "flutter pub get") none).events.filter Event.isSpawn) = [] ∧
    (execute cfgDry envNothing (.str "flutter pub get") none).prints
      = ["  [DRY] " ++ cmdDisplay (.str "flutter pub get")] :=
  ⟨rfl,
   (execute_dry_run_invariant cfgDry envNothing (.str "flutter pub get") none rfl).1,
   (execute_dry_run_invariant cfgDry envNothing (.str "flutter pub get") none rfl).2.1,
   (execute_dry_run_invariant cfgDry envNothing (.str "flutter pub get") none rfl).2.2⟩

/-- C10: with dry-run disabled on a Unix-family platform, a string command
is passed with `shell=False`, so the whole string is looked up as one
executable name; when no executable name containing a space exists, every
multi-word string command takes the command-not-found branch: `execute`
returns false, spawns nothing, and prints the not-found message. -/
theorem multiword_string_command_not_found (config : RuntimeConfig) (env : SysEnv)
    (s : String) (cwd : Option String)
    (hdry : config.dry_run = false) (hwin : config.is_windows = false)
    (hspace : ' ' ∈ s.data)
    (hexec : ∀ name, ' ' ∈ name.data → env.execFound name = false) :
    (execute config env (.str s) cwd).ok = false ∧
    ((execute config env (.str s) cwd).events.filter Event.isSpawn) = [] ∧
    ("  ❌ Command not found: " ++ s) ∈ (execute config env (.str s) cwd).prints := by
  have hf : env.execFound s = false := hexec s hspace
  simp [execute, hdry, hwin, subprocessRun, prepare_command, hf, cmdRepr, Event.isSpawn]

/-- Witness for C10: `npm ci` (as passed by `setup_node`) is not found. -/
theorem multiword_string_command_not_found_witness :
    cfgDefault.dry_run = false ∧ cfgDefault.is_windows = false ∧
    ' ' ∈ "npm ci".data ∧
    (execute cfgDefault envNothing (.str "npm ci") none).ok = false ∧
    ("  ❌ Command not found: " ++ "npm ci") ∈
      (execute cfgDefault envNothing (.str "npm ci") none).prints :=
  ⟨rfl, rfl, by decide,
   (multiword_string_command_not_found cfgDefault envNothing "npm ci" none rfl rfl
      (by decide) (fun _ _ => rfl)).1,
   (multiword_string_command_not_found cfgDefault envNothing "npm ci" none rfl rfl
      (by decide) (fun _ _ => rfl)).2.2⟩

/-- C5: Node package-manager selection follows the exact first-match-wins
order of the lockfile table (`pnpm`, `yarn`, `npm`), each guarded by its
probe, then the fixed fallback order `npm`, `pnpm`, `yarn`, else none.  In
particular a pnpm lockfile with a working pnpm probe wins even when
`package-lock.json` also exists. -/
theorem get_package_manager_order (env : SysEnv) (fs : FS) :
    (get_package_manager env fs).1 =
      (if fs.pathExists "pnpm-lock.yaml" = true ∧ (has_command env "pnpm").1 = true then
         some "pnpm"
       else if fs.pathExists "yarn.lock" = true ∧ (has_command env "yarn").1 = true then
         some "yarn"
       else if fs.pathExists "package-lock.json" = true ∧ (has_command env "npm").1 = true then
         some "npm"
       else if (has_command env "npm").1 = true then some "npm"
       else if (has_command env "pnpm").1 = true then some "pnpm"
       else if (has_command env "yarn").1 = true then some "yarn"
       else none) := by
  by_cases h1 : fs.pathExists "pnpm-lock.yaml" <;>
  by_cases hp : (has_command env "pnpm").1 <;>
  by_cases h2 : fs.pathExists "yarn.lock" <;>
  by_cases hy : (has_command env "yarn").1 <;>
  by_cases h3 : fs.pathExists "package-lock.json" <;>
  by_cases hn : (has_command env "npm").1 <;>
    simp_all [get_package_manager, lock_files, pmLockLoop, pmFallback, has_command]

/-- A working directory holding `package.json` and `requirements.txt`. -/
def fsNodePy : FS :=
  { pathExists := fun p => p == "package.json" || p == "requirements.txt",
    readText := fun _ => none }

/-- C1 counterexample: with `node` and `python` both detected and the node
strategy failing (no package manager found — the probes fail), the python
strategy is never invoked: `all(...)` consumes its generator lazily, so the
orchestration does short-circuit, contrary to the claim. -/
theorem orchestrator_short_circuit_cex :
    detect_languages fsNodePy = ["node", "python"] ∧
    (mainRun cfgDry envNothing fsNodePy "python3").2.1 = ["node"] := by decide

/-- C1 amended: the aggregate setup result still equals the logical AND of
the results of all applicable strategies (each strategy taken as a function
of the initial state), but the orchestrator short-circuits invocation at
the first failing strategy rather than running every one. -/
theorem runSetups_all_and (config : RuntimeConfig) (env : SysEnv) (fs : FS)
    (sysExec : String) (langs : List String) :
    (runSetups config env fs sysExec langs).1 =
      langs.all (fun lang => ((setupFor config env fs sysExec lang).map Prod.fst).getD true) := by
  induction langs with
  | nil => rfl
  | cons lang rest ih =>
      cases h : setupFor config env fs sysExec lang with
      | none => simp [runSetups, h, ih]
      | some p =>
          obtain ⟨r, t⟩ := p
          cases r
          · simp [runSetups, h]
          · simp [runSetups, h, ih]

/-- A working directory holding only `package.json`. -/
def fsNodeOnly : FS :=
  { pathExists := fun p => p == "package.json", readText := fun _ => none }

/-- C4 counterexample: in dry-run mode the package-manager capability
probes still spawn child processes (`_has_command` is not gated on
dry-run), so a dry run of a node project spawns three shell probes. -/
theorem dry_run_still_spawns_cex :
    cfgDry.dry_run = true ∧
    ((mainRun cfgDry envNothing fsNodeOnly "python3").2.2.filter Event.isSpawn) =
      [.probeShell "npm --version", .probeShell "pnpm --version",
       .probeShell "yarn --version"] := by decide

/-- Dry-run trace discipline: an event is allowed if it is either not a
spawned process at all or comes from one of the probes. -/
def dryOk (e : Event) : Bool := !e.isSpawn || e.isProbe

/-- A probe-only trace satisfies the dry-run discipline. -/
theorem dryOk_of_probe {t : Trace} (h : t.all Event.isProbe = true) :
    t.all dryOk = true := by
  rw [List.all_eq_true] at h ⊢
  intro e he
  have := h e he
  simp [dryOk, this]

/-- In dry-run mode `execute` emits only its call marker. -/
theorem execute_dry_all (config : RuntimeConfig) (env : SysEnv) (cmd : Cmd)
    (cwd : Option String) (h : config.dry_run = true) :
    (execute config env cmd cwd).events.all dryOk = true := by
  simp [execute, h, dryOk, Event.isSpawn, Event.isProbe]

/-- The import probe's trace is probe-only. -/
theorem has_python_package_all (env : SysEnv) (py pkg : String) :
    (has_python_package env py pkg).2.all dryOk = true := by
  simp only [has_python_package]
  split <;> simp [dryOk, Event.isSpawn, Event.isProbe]

/-- In dry-run mode the python dependency install spawns nothing. -/
theorem install_python_deps_dry_all (config : RuntimeConfig) (env : SysEnv)
    (fs : FS) (pip : String) (h : config.dry_run = true) :
    (install_python_deps config env fs pip).2.all dryOk = true := by
  simp only [install_python_deps]
  split
  · simpa using execute_dry_all config env (.list [pip, "install", "-r", "requirements.txt"]) none h
  · split
    · simpa using execute_dry_all config env (.list [pip, "install", "-e", "."]) none h
    · rfl

/-- In dry-run mode the python setup spawns nothing. -/
theorem setup_python_dry_all (config : RuntimeConfig) (env : SysEnv) (fs : FS)
    (sysExec : String) (h : config.dry_run = true) :
    (setup_python config env fs sysExec).2.all dryOk = true := by
  have hd := install_python_deps_dry_all config env fs (".venv/" ++ venvPipRel config) h
  simp only [setup_python]
  rcases hX : install_python_deps config env fs (".venv/" ++ venvPipRel config) with ⟨r2, t2⟩
  rw [hX] at hd
  split
  · simp [execute, h, dryOk, Event.isSpawn, Event.isProbe, hX, List.all_append, hd]
  · simpa using hd

/-- In dry-run mode the node setup spawns only probes. -/
theorem setup_node_dry_all (config : RuntimeConfig) (env : SysEnv) (fs : FS)
    (h : config.dry_run = true) :
    (setup_node config env fs).2.all dryOk = true := by
  have hg := dryOk_of_probe (get_package_manager_events env fs)
  simp only [setup_node]
  rcases hX : get_package_manager env fs with ⟨pmOpt, t0⟩
  rw [hX] at hg
  cases pmOpt with
  | none => simpa using hg
  | some pm =>
      simp only []
      split
      · simp [execute, h, dryOk, Event.isSpawn, Event.isProbe, List.all_append, hg]
      · simp [execute, h, dryOk, Event.isSpawn, Event.isProbe, List.all_append, hg]

/-- In dry-run mode the rust setup spawns only its probe. -/
theorem setup_rust_dry_all (config : RuntimeConfig) (env : SysEnv)
    (h : config.dry_run = true) :
    (setup_rust config env).2.all dryOk = true := by
  simp only [setup_rust]
  split
  · simp [has_command, dryOk, Event.isSpawn, Event.isProbe]
  · simp [has_command, execute, h, dryOk, Event.isSpawn, Event.isProbe, List.all_append]

/-- In dry-run mode the flutter setup spawns only its probe. -/
theorem setup_flutter_dry_all (config : RuntimeConfig) (env : SysEnv) (fs : FS)
    (h : config.dry_run = true) :
    (setup_flutter config env fs).2.all dryOk = true := by
  simp only [setup_flutter]
  split
  · simp [has_command, dryOk, Event.isSpawn, Event.isProbe]
  · split <;>
      simp [has_command, execute, h, dryOk, Event.isSpawn, Event.isProbe, List.all_append]

/-- In dry-run mode the git-hooks setup spawns nothing. -/
theorem setup_git_hooks_dry_all (config : RuntimeConfig) (env : SysEnv) (fs : FS)
    (sysExec : String) (h : config.dry_run = true) :
    (setup_git_hooks config env fs sysExec).2.all dryOk = true := by
  simp only [setup_git_hooks]
  split
  · rfl
  · simpa using execute_dry_all config env
      (.list [get_python_executable config fs sysExec, "-m", "pre_commit", "install"]) none h

/-- In dry-run mode the python formatter spawns only probes. -/
theorem format_python_dry_all (config : RuntimeConfig) (env : SysEnv) (fs : FS)
    (h : config.dry_run = true) :
    (format_python config env fs).2.all dryOk = true := by
  simp only [format_python]
  split
  · rfl
  · rcases hR : has_python_package env (".venv/" ++ venvPythonRel config) "ruff" with ⟨okR, tR⟩
    have haR := has_python_package_all env (".venv/" ++ venvPythonRel config) "ruff"
    rw [hR] at haR
    rcases hB : has_python_package env (".venv/" ++ venvPythonRel config) "black" with ⟨okB, tB⟩
    have haB := has_python_package_all env (".venv/" ++ venvPythonRel config) "black"
    rw [hB] at haB
    simp only at haR haB
    split
    · simp_all [execute, h, dryOk, Event.isSpawn, Event.isProbe, List.all_append,
        List.all_eq_true]
    · split <;>
        simp_all [execute, h, dryOk, Event.isSpawn, Event.isProbe, List.all_append,
          List.all_eq_true]

/-- In dry-run mode the node formatter spawns nothing. -/
theorem format_node_dry_all (config : RuntimeConfig) (env : SysEnv) (fs : FS)
    (h : config.dry_run = true) :
    (format_node config env fs).2.all dryOk = true := by
  simp only [format_node]
  split
  · simpa using execute_dry_all config env (.str "npm run format") none h
  · split
    · simpa using execute_dry_all config env (.str "npx prettier --write .") none h
    · rfl

/-- In dry-run mode the flutter formatter spawns nothing. -/
theorem format_flutter_dry_all (config : RuntimeConfig) (env : SysEnv)
    (h : config.dry_run = true) :
    (format_flutter config env).2.all dryOk = true := by
  simpa [format_flutter] using execute_dry_all config env (.str "dart format .") none h

/-- In dry-run mode the formatting phase spawns only probes. -/
theorem format_all_dry_all (config : RuntimeConfig) (env : SysEnv) (fs : FS)
    (detected : List String) (h : config.dry_run = true) :
    (format_all config env fs detected).2.all dryOk = true := by
  simp only [format_all]
  rcases h1 : (if detected.contains "python" then format_python config env fs else (true, []))
    with ⟨s1, t1⟩
  rcases h2 : (if detected.contains "node" then format_node config env fs else (true, []))
    with ⟨s2, t2⟩
  rcases h3 : (if detected.contains "flutter" then format_flutter config env else (true, []))
    with ⟨s3, t3⟩
  have ha1 : t1.all dryOk = true := by
    rcases hc : detected.contains "python" <;> rw [hc] at h1 <;> simp at h1
    · rw [h1.2]; rfl
    · have := format_python_dry_all config env fs h
      rw [h1] at this
      simpa using this
  have ha2 : t2.all dryOk = true := by
    rcases hc : detected.contains "node" <;> rw [hc] at h2 <;> simp at h2
    · rw [h2.2]; rfl
    · have := format_node_dry_all config env fs h
      rw [h2] at this
      simpa using this
  have ha3 : t3.all dryOk = true := by
    rcases hc : detected.contains "flutter" <;> rw [hc] at h3 <;> simp at h3
    · rw [h3.2]; rfl
    · have := format_flutter_dry_all config env h
      rw [h3] at this
      simpa using this
  simp [List.all_append, ha1, ha2, ha3]

/-- In dry-run mode every setup strategy spawns only probes. -/
theorem setupFor_dry_all (config : RuntimeConfig) (env : SysEnv) (fs : FS)
    (sysExec : String) (lang : String) (p : Bool × Trace)
    (h : config.dry_run = true)
    (hp : setupFor config env fs sysExec lang = some p) :
    p.2.all dryOk = true := by
  unfold setupFor at hp
  split at hp
  · injection hp with hp; subst hp; exact setup_python_dry_all config env fs sysExec h
  · injection hp with hp; subst hp; exact setup_node_dry_all config env fs h
  · injection hp with hp; subst hp; exact setup_rust_dry_all config env h
  · injection hp with hp; subst hp; exact setup_flutter_dry_all config env fs h
  · injection hp with hp; subst hp; exact setup_git_hooks_dry_all config env fs sysExec h
  · exact Option.noConfusion hp

/-- In dry-run mode the whole setup phase spawns only probes. -/
theorem runSetups_dry_all (config : RuntimeConfig) (env : SysEnv) (fs : FS)
    (sysExec : String) (langs : List String) (h : config.dry_run = true) :
    (runSetups config env fs sysExec langs).2.2.all dryOk = true := by
  induction langs with
  | nil => rfl
  | cons lang rest ih =>
      cases hp : setupFor config env fs sysExec lang with
      | none => simpa [runSetups, hp] using ih
      | some p =>
          obtain ⟨r, t⟩ := p
          have ht : t.all dryOk = true := setupFor_dry_all config env fs sysExec lang (r, t) h hp
          cases r
          · simpa [runSetups, hp] using ht
          · simp [runSetups, hp, List.all_append, ht, ih]

/-- C4 amended: in dry-run mode `CommandRunner.execute` spawns no child
process, but the capability and package probes still do; hence every
process spawned during a dry run comes from a probe, not from `execute`. -/
theorem dry_run_spawns_only_probes (config : RuntimeConfig) (env : SysEnv) (fs : FS)
    (sysExec : String) (h : config.dry_run = true) :
    ((mainRun config env fs sysExec).2.2.all dryOk) = true := by
  simp only [mainRun]
  split
  · rfl
  · rcases hS : runSetups config env fs sysExec (detect_languages fs) with ⟨s1, inv, t1⟩
    have ha1 := runSetups_dry_all config env fs sysExec (detect_languages fs) h
    rw [hS] at ha1
    rcases hF : format_all config env fs (detect_languages fs) with ⟨s2, t2⟩
    have ha2 := format_all_dry_all config env fs (detect_languages fs) h
    rw [hF] at ha2
    simp only at ha1 ha2
    simp [List.all_append, ha1, ha2]

/-- Witness for the amended C4 at a concrete dry run. -/
theorem dry_run_spawns_only_probes_witness :
    cfgDry.dry_run = true ∧
    ((mainRun cfgDry envNothing fsNodeOnly "python3").2.2.all dryOk) = true :=
  ⟨rfl, dry_run_spawns_only_probes cfgDry envNothing fsNodeOnly "python3" rfl⟩

/-- An environment where the npm shell probe succeeds but no executable
lookup does (so every non-dry string command is "not found"). -/
def envNpmProbe : SysEnv :=
  { execFound := fun _ => false,
    runProc := fun _ _ => procFail,
    runShell := fun line _ => if line == "npm --version" then procOk else procFail,
    jsonParse := fun _ => none }

/-- A working directory holding `package.json` and `package-lock.json`. -/
def fsNpmLock : FS :=
  { pathExists := fun p => p == "package.json" || p == "package-lock.json",
    readText := fun _ => none }

/-- C2 counterexample: with npm selected and its lockfile present, `npm ci`
is attempted and fails, and the generic `npm install` is nevertheless also
run — contradicting "whenever npm ci is applicable and attempted, the
generic install is not run". -/
theorem setup_node_fallthrough_cex :
    Event.execCall (.str "npm ci") none ∈ (setup_node cfgDefault envNpmProbe fsNpmLock).2 ∧
    Event.execCall (.str "npm install") none ∈
      (setup_node cfgDefault envNpmProbe fsNpmLock).2 := by decide

/-- C2 amended: when the selected manager is npm and `package-lock.json`
exists, `npm ci` is attempted first, and the generic install is skipped
iff that attempt succeeds; when `npm ci` fails the code falls through and
runs the generic install, whose result becomes the strategy's result. -/
theorem setup_node_npm_ci (config : RuntimeConfig) (env : SysEnv) (fs : FS)
    (hpm : (get_package_manager env fs).1 = some "npm")
    (hlock : fs.pathExists "package-lock.json" = true) :
    Event.execCall (.str "npm ci") none ∈ (setup_node config env fs).2 ∧
    ((execute config env (.str "npm ci") none).ok = true →
       (setup_node config env fs).1 = true ∧
       Event.execCall (.str "npm install") none ∉ (setup_node config env fs).2) ∧
    ((execute config env (.str "npm ci") none).ok = false →
       Event.execCall (.str "npm install") none ∈ (setup_node config env fs).2 ∧
       (setup_node config env fs).1 = (execute config env (.str "npm install") none).ok) := by
  have hg := get_package_manager_events env fs
  have hmemci : Event.execCall (.str "npm ci") none
      ∈ (execute config env (.str "npm ci") none).events :=
    (execute_mem_execCall config env (.str "npm ci") none (.str "npm ci") none).mpr ⟨rfl, rfl⟩
  have hmeminst : Event.execCall (.str "npm install") none
      ∈ (execute config env (.str "npm install") none).events :=
    (execute_mem_execCall config env (.str "npm install") none
      (.str "npm install") none).mpr ⟨rfl, rfl⟩
  have hnotci : Event.execCall (.str "npm install") none
      ∉ (execute config env (.str "npm ci") none).events := by
    rw [execute_mem_execCall]
    rintro ⟨hc, -⟩
    exact absurd hc (by decide)
  simp only [setup_node]
  rcases hX : get_package_manager env fs with ⟨pmOpt, t0⟩
  rw [hX] at hg hpm
  simp only at hg hpm
  have hnott0 : Event.execCall (.str "npm install") none ∉ t0 :=
    execCall_not_mem_probes hg _ _
  subst hpm
  rcases hci : (execute config env (.str "npm ci") none).ok
  · refine ⟨?_, ?_, ?_⟩
    · simp [hlock, hci, List.mem_append, hmemci]
    · intro hcontra
      simp at hcontra
    · intro _
      constructor
      · simp [hlock, hci, List.mem_append, hmeminst]
      · simp [hlock, hci]
  · refine ⟨?_, ?_, ?_⟩
    · simp [hlock, hci, List.mem_append, hmemci]
    · intro _
      constructor
      · simp [hlock, hci]
      · simp [hlock, hci, List.mem_append, hnott0, hnotci]
    · intro hcontra
      simp at hcontra

/-- Witness for the amended C2: in dry-run mode `npm ci` succeeds, and the
generic install is not invoked. -/
theorem setup_node_npm_ci_witness :
    (get_package_manager envNpmProbe fsNpmLock).1 = some "npm" ∧
    fsNpmLock.pathExists "package-lock.json" = true ∧
    (setup_node cfgDry envNpmProbe fsNpmLock).1 = true ∧
    Event.execCall (.str "npm install") none ∉ (setup_node cfgDry envNpmProbe fsNpmLock).2 :=
  ⟨by decide, by decide,
   ((setup_node_npm_ci cfgDry envNpmProbe fsNpmLock (by decide) (by decide)).2.1 rfl).1,
   ((setup_node_npm_ci cfgDry envNpmProbe fsNpmLock (by decide) (by decide)).2.1 rfl).2⟩

/-- The `execCall` marker of the venv-creation command
`[sys.executable, "-m", "venv", ".venv"]`. -/
def venvCreateEvent (sysExec : String) : Event :=
  .execCall (.list [sysExec, "-m", "venv", ".venv"]) none

/-- How many times `runner.execute` was invoked with the venv-creation
command in a trace. -/
def venvCreateCalls (sysExec : String) (t : Trace) : Nat :=
  t.count (venvCreateEvent sysExec)

/-- `execute` contributes one `execCall` marker, for its own command. -/
theorem execute_count_execCall (config : RuntimeConfig) (env : SysEnv) (cmd : Cmd)
    (cwd : Option String) (c : Cmd) (w : Option String) :
    (execute config env cmd cwd).events.count (Event.execCall c w) =
      if cmd = c ∧ cwd = w then 1 else 0 := by
  have hno := subprocessRun_no_execCall env (prepare_command config cmd) cwd
    config.is_windows c w
  have hsingle : ∀ l : Trace, l.count (Event.execCall c w) = 0 →
      (Event.execCall cmd cwd :: l).count (Event.execCall c w) =
        if cmd = c ∧ cwd = w then 1 else 0 := by
    intro l hl
    rw [List.count_cons, hl]
    by_cases hcw : cmd = c ∧ cwd = w
    · obtain ⟨h1, h2⟩ := hcw
      subst h1
      subst h2
      simp
    · have hbeq : (Event.execCall cmd cwd == Event.execCall c w) = false := by
        rw [beq_eq_false_iff_ne]
        intro he
        injection he with e1 e2
        exact hcw ⟨e1, e2⟩
      simp [hbeq, hcw]
  by_cases hd : config.dry_run
  · have hev : (execute config env cmd cwd).events = [Event.execCall cmd cwd] := by
      simp [execute, hd]
    rw [hev]
    exact hsingle [] rfl
  · simp only [execute, hd, Bool.false_eq_true, if_false]
    rcases hsub : subprocessRun env (prepare_command config cmd) cwd config.is_windows
      with ⟨outcome, evs⟩
    rw [hsub] at hno
    have hzero : evs.count (Event.execCall c w) = 0 := List.count_eq_zero.mpr hno
    cases outcome
    · simpa using hsingle evs hzero
    · simpa using hsingle evs hzero
    · simpa using hsingle [] rfl

/-- The pip install commands of `_install_python_deps` are never the
venv-creation command. -/
theorem install_python_deps_no_create (config : RuntimeConfig) (env : SysEnv)
    (fs : FS) (pip sysExec : String) :
    venvCreateCalls sysExec (install_python_deps config env fs pip).2 = 0 := by
  simp only [install_python_deps, venvCreateCalls, venvCreateEvent]
  split
  · rw [execute_count_execCall]
    simp
  · split
    · rw [execute_count_execCall]
      simp
    · rfl

/-- The venv-creation command is invoked exactly when `.venv` is absent. -/
theorem setup_python_venvCreate_count (config : RuntimeConfig) (env : SysEnv)
    (fs : FS) (sysExec : String) :
    venvCreateCalls sysExec (setup_python config env fs sysExec).2 =
      (if fs.pathExists ".venv" = true then 0 else 1) := by
  have h0 := install_python_deps_no_create config env fs (".venv/" ++ venvPipRel config) sysExec
  simp only [setup_python]
  split
  · rename_i hnv
    split
    · simp only [venvCreateCalls, venvCreateEvent]
      rw [execute_count_execCall]
      simp [hnv]
    · rcases hX : install_python_deps config env fs (".venv/" ++ venvPipRel config)
        with ⟨r2, t2⟩
      have h0t : List.count (Event.execCall (Cmd.list [sysExec, "-m", "venv", ".venv"]) none)
          t2 = 0 := by
        rw [hX] at h0
        simpa [venvCreateCalls, venvCreateEvent] using h0
      simp only [venvCreateCalls, venvCreateEvent]
      simp [List.count_append, execute_count_execCall, hnv, h0t]
  · rename_i hv
    have hv2 : fs.pathExists ".venv" = true := by
      rcases hb : fs.pathExists ".venv"
      · exact absurd (by simp [hb]) hv
      · rfl
    rw [if_pos hv2]
    exact h0

/-- C7: Python setup is idempotent for venv creation: a run in which the
venv directory already exists invokes the creation command zero times, and
two consecutive runs, the second of which sees the directory, invoke it at
most once in total. -/
theorem setup_python_idempotent (config : RuntimeConfig) (env : SysEnv)
    (fs1 fs2 : FS) (sysExec : String)
    (h2 : fs2.pathExists ".venv" = true) :
    venvCreateCalls sysExec (setup_python config env fs2 sysExec).2 = 0 ∧
    venvCreateCalls sysExec (setup_python config env fs1 sysExec).2 +
      venvCreateCalls sysExec (setup_python config env fs2 sysExec).2 ≤ 1 := by
  have e1 := setup_python_venvCreate_count config env fs1 sysExec
  have e2 := setup_python_venvCreate_count config env fs2 sysExec
  rw [h2] at e2
  simp only [if_pos rfl] at e2
  refine ⟨e2, ?_⟩
  rw [e1, e2]
  split <;> simp

/-- A working directory holding only the `.venv` directory. -/
def fsVenv : FS := { pathExists := fun p => p == ".venv", readText := fun _ => none }

/-- Witness for C7: a first run on an empty directory and a second run that
sees `.venv` invoke the creation command once in total. -/
theorem setup_python_idempotent_witness :
    fsVenv.pathExists ".venv" = true ∧
    venvCreateCalls "python3" (setup_python cfgDefault envNothing fsVenv "python3").2 = 0 ∧
    venvCreateCalls "python3" (setup_python cfgDefault envNothing fsEmpty "python3").2 +
      venvCreateCalls "python3" (setup_python cfgDefault envNothing fsVenv "python3").2 ≤ 1 :=
  ⟨by decide,
   (setup_python_idempotent cfgDefault envNothing fsEmpty fsVenv "python3" (by decide)).1,
   (setup_python_idempotent cfgDefault envNothing fsEmpty fsVenv "python3" (by decide)).2⟩

/-- An environment where only the flutter shell probe succeeds. -/
def envFlutter : SysEnv :=
  { execFound := fun _ => false,
    runProc := fun _ _ => procFail,
    runShell := fun line _ => if line == "flutter --version" then procOk else procFail,
    jsonParse := fun _ => none }

/-- A flutter project whose manifest declares `build_runner:`. -/
def fsFlutterBR : FS :=
  { pathExists := fun p => p == "pubspec.yaml",
    readText := fun p =>
      if p == "pubspec.yaml" then some "dev_dependencies:\n  build_runner: ^2.4.0\n"
      else none }

/-- `_has_build_runner` holds exactly when dry-run is off, the manifest
exists, and its text is readable and contains `build_runner:`. -/
theorem has_build_runner_iff (config : RuntimeConfig) (fs : FS) :
    has_build_runner config fs = true ↔
      (config.dry_run = false ∧ fs.pathExists "pubspec.yaml" = true ∧
       ∃ text, fs.readText "pubspec.yaml" = some text ∧
         containsSub text "build_runner:" = true) := by
  rcases hd : config.dry_run
  · rcases hex : fs.pathExists "pubspec.yaml"
    · simp [has_build_runner, hd, hex]
    · cases hread : fs.readText "pubspec.yaml" <;>
        simp [has_build_runner, hd, hex, hread]
  · simp [has_build_runner, hd]

/-- Unfolding of `setup_flutter` when the flutter probe succeeds. -/
theorem setup_flutter_unfold (config : RuntimeConfig) (env : SysEnv) (fs : FS)
    (hok : (has_command env "flutter").1 = true) :
    setup_flutter config env fs =
      (if has_build_runner config fs then
        ((execute config env (.str "flutter pub get") none).ok &&
         (execute config env buildRunnerCmd none).ok,
         (has_command env "flutter").2 ++
           (execute config env (.str "flutter pub get") none).events ++
           (execute config env buildRunnerCmd none).events)
       else
        ((execute config env (.str "flutter pub get") none).ok,
         (has_command env "flutter").2 ++
           (execute config env (.str "flutter pub get") none).events)) := by
  simp only [setup_flutter]
  rcases hH : has_command env "flutter" with ⟨okF, tF⟩
  rw [hH] at hok
  simp only at hok
  subst hok
  simp

/-- C6: with the flutter capability present, the package fetch is always
run; the code-generation build step runs iff the manifest check passes
(which requires a readable `pubspec.yaml` containing `build_runner:` and
dry-run disabled, and is false in dry-run without reading the manifest);
when both steps run the result is their non-short-circuiting AND. -/
theorem setup_flutter_spec (config : RuntimeConfig) (env : SysEnv) (fs : FS)
    (hok : (has_command env "flutter").1 = true) :
    Event.execCall (.str "flutter pub get") none ∈ (setup_flutter config env fs).2 ∧
    ((Event.execCall buildRunnerCmd none ∈ (setup_flutter config env fs).2) ↔
       has_build_runner config fs = true) ∧
    (has_build_runner config fs = true →
       (setup_flutter config env fs).1 =
         ((execute config env (.str "flutter pub get") none).ok &&
          (execute config env buildRunnerCmd none).ok)) ∧
    (config.dry_run = true → has_build_runner config fs = false) ∧
    (has_build_runner config fs = true ↔
       (config.dry_run = false ∧ fs.pathExists "pubspec.yaml" = true ∧
        ∃ text, fs.readText "pubspec.yaml" = some text ∧
          containsSub text "build_runner:" = true)) := by
  have hpg : Event.execCall (.str "flutter pub get") none
      ∈ (execute config env (.str "flutter pub get") none).events :=
    (execute_mem_execCall config env (.str "flutter pub get") none
      (.str "flutter pub get") none).mpr ⟨rfl, rfl⟩
  have hbrm : Event.execCall buildRunnerCmd none
      ∈ (execute config env buildRunnerCmd none).events :=
    (execute_mem_execCall config env buildRunnerCmd none buildRunnerCmd none).mpr ⟨rfl, rfl⟩
  have hnotpg : Event.execCall buildRunnerCmd none
      ∉ (execute config env (.str "flutter pub get") none).events := by
    rw [execute_mem_execCall]
    rintro ⟨hc, -⟩
    exact absurd hc (by decide)
  have hprobe := has_command_events env "flutter"
  have hnotF1 : Event.execCall (.str "flutter pub get") none ∉ (has_command env "flutter").2 :=
    execCall_not_mem_probes hprobe _ _
  have hnotF2 : Event.execCall buildRunnerCmd none ∉ (has_command env "flutter").2 :=
    execCall_not_mem_probes hprobe _ _
  rw [setup_flutter_unfold config env fs hok]
  refine ⟨?_, ?_, ?_, ?_, has_build_runner_iff config fs⟩
  · rcases hbr : has_build_runner config fs <;> simp [List.mem_append, hpg]
  · rcases hbr : has_build_runner config fs
    · simp [List.mem_append, hnotF2, hnotpg]
    · simp [List.mem_append, hbrm]
  · intro h
    simp [h]
  · intro h
    simp [has_build_runner, h]

/-- Witness for C6 at a concrete flutter project declaring build_runner. -/
theorem setup_flutter_spec_witness :
    (has_command envFlutter "flutter").1 = true ∧
    has_build_runner cfgDefault fsFlutterBR = true ∧
    Event.execCall (.str "flutter pub get") none
      ∈ (setup_flutter cfgDefault envFlutter fsFlutterBR).2 ∧
    Event.execCall buildRunnerCmd none
      ∈ (setup_flutter cfgDefault envFlutter fsFlutterBR).2 :=
  ⟨by decide, by decide,
   (setup_flutter_spec cfgDefault envFlutter fsFlutterBR (by decide)).1,
   (setup_flutter_spec cfgDefault envFlutter fsFlutterBR (by decide)).2.1.mpr (by decide)⟩

/-- A directory where `package.json` and `pubspec.yaml` exist but cannot
be read. -/
def fsUnreadable : FS :=
  { pathExists := fun p => p == "package.json" || p == "pubspec.yaml",
    readText := fun _ => none }

/-- C8: a malformed or unreadable manifest is treated as feature absence:
an unreadable or non-JSON `package.json` yields no format script, an
unreadable `pubspec.yaml` yields no build runner, and those false results
route to no-op success rather than failure. -/
theorem manifest_read_failure_local (config : RuntimeConfig) (env : SysEnv) (fs : FS) :
    (fs.readText "package.json" = none → has_npm_format_script env fs = false) ∧
    (∀ content, fs.readText "package.json" = some content → env.jsonParse content = none →
       has_npm_format_script env fs = false) ∧
    (fs.readText "pubspec.yaml" = none → has_build_runner config fs = false) ∧
    (has_npm_format_script env fs = false → prettier_configs.any fs.pathExists = false →
       format_node config env fs = (true, [])) ∧
    ((has_command env "flutter").1 = true → has_build_runner config fs = false →
       (setup_flutter config env fs).1 = (execute config env (.str "flutter pub get") none).ok) := by
  refine ⟨?_, ?_, ?_, ?_, ?_⟩
  · intro h
    rcases hex : fs.pathExists "package.json" <;>
      simp [has_npm_format_script, hex, h]
  · intro content h hp
    rcases hex : fs.pathExists "package.json" <;>
      simp [has_npm_format_script, hex, h, hp]
  · intro h
    rcases hex : fs.pathExists "pubspec.yaml" <;> rcases hd : config.dry_run <;>
      simp [has_build_runner, hex, hd, h]
  · intro h1 h2
    simp [format_node, h1, h2]
  · intro hok hbr
    rw [setup_flutter_unfold config env fs hok, hbr]
    simp

/-- Witness for C8 at a directory whose manifests exist but are unreadable. -/
theorem manifest_read_failure_local_witness :
    fsUnreadable.readText "package.json" = none ∧
    fsUnreadable.readText "pubspec.yaml" = none ∧
    has_npm_format_script envFlutter fsUnreadable = false ∧
    has_build_runner cfgDefault fsUnreadable = false ∧
    format_node cfgDefault envFlutter fsUnreadable = (true, []) ∧
    (setup_flutter cfgDefault envFlutter fsUnreadable).1 =
      (execute cfgDefault envFlutter (.str "flutter pub get") none).ok :=
  ⟨rfl, rfl,
   (manifest_read_failure_local cfgDefault envFlutter fsUnreadable).1 rfl,
   (manifest_read_failure_local cfgDefault envFlutter fsUnreadable).2.2.1 rfl,
   (manifest_read_failure_local cfgDefault envFlutter fsUnreadable).2.2.2.1
     ((manifest_read_failure_local cfgDefault envFlutter fsUnreadable).1 rfl) (by decide),
   (manifest_read_failure_local cfgDefault envFlutter fsUnreadable).2.2.2.2 (by decide)
     ((manifest_read_failure_local cfgDefault envFlutter fsUnreadable).2.2.1 rfl)⟩

/-- C9: exit code 0 on help; 0 with nothing invoked when no ecosystem is
detected; otherwise the exit code is 1 exactly when the setup phase or the
formatting phase reports failure, and is always 0 or 1. -/
theorem exit_code_spec (config : RuntimeConfig) (env : SysEnv) (fs : FS)
    (sysExec : String) (isWindows : Bool) (argv : List String) :
    ((argv.contains "--help" = true ∨ argv.contains "-h" = true) →
       programExit isWindows argv env fs sysExec = 0) ∧
    (detect_languages fs = [] → mainRun config env fs sysExec = (0, [], [])) ∧
    ((mainRun config env fs sysExec).1 = 1 ↔
       ((runSetups config env fs sysExec (detect_languages fs)).1 = false ∨
        (format_all config env fs (detect_languages fs)).1 = false)) ∧
    ((mainRun config env fs sysExec).1 = 0 ∨ (mainRun config env fs sysExec).1 = 1) := by
  refine ⟨?_, ?_, ?_, ?_⟩
  · intro h
    simp only [programExit, parse_arguments]
    have hmem : ("--help" ∈ argv) ∨ ("-h" ∈ argv) := by
      rcases h with h | h
      · exact Or.inl (by simpa using h)
      · exact Or.inr (by simpa using h)
    simp [hmem]
  · intro h
    simp [mainRun, h]
  · simp only [mainRun]
    rcases hdet : detect_languages fs with _ | ⟨l, rest⟩
    · simp [runSetups, format_all]
    · rcases hS : runSetups config env fs sysExec (l :: rest) with ⟨s1, inv, t1⟩
      rcases hF : format_all config env fs (l :: rest) with ⟨s2, t2⟩
      cases s1 <;> cases s2 <;> simp
  · simp only [mainRun]
    rcases hdet : detect_languages fs with _ | ⟨l, rest⟩
    · simp
    · rcases hS : runSetups config env fs sysExec (l :: rest) with ⟨s1, inv, t1⟩
      rcases hF : format_all config env fs (l :: rest) with ⟨s2, t2⟩
      cases s1 <;> cases s2 <;> simp

/-- Witness for C9: help exits 0, and an empty directory yields exit 0
with no strategy invoked and nothing spawned. -/
theorem exit_code_spec_witness :
    programExit false ["-h"] envNothing fsEmpty "python3" = 0 ∧
    mainRun cfgDefault envNothing fsEmpty "python3" = (0, [], []) :=
  ⟨(exit_code_spec cfgDefault envNothing fsEmpty "python3" false ["-h"]).1
     (Or.inr (by decide)),
   (exit_code_spec cfgDefault envNothing fsEmpty "python3" false ["-h"]).2.1 (by decide)⟩
